import Mathlib

/-!
Shallow embedding of the PyEmittance measurement-acquisition pipeline
(the files pyemittance/otrs_io.py and pyemittance/machine_io.py).

Conventions of the embedding:
* A possibly-NaN floating value is modelled as an Option: `none` stands for
  NaN.  Quantities that steer control flow (rms widths, amplitudes) carry
  `Option ℚ`; the fit-error slots, which are produced by a square root and
  feed no comparison except a NaN-ness test, carry `Option ℝ`.
* IEEE comparison semantics: every comparison against NaN is `false`, and
  arithmetic on NaN yields NaN.
* Device reads (get_beam_image, one EPICS round trip each) are a stream
  `ℕ → Meas` indexed by a running acquisition counter.  The operations of
  the Image class (reshape_im, subtract_bg, get_im_projection, get_sizes),
  which live in pyemittance/image.py outside the two embedded files, are
  opaque parameters of the environment: the claims under study quantify
  over their behaviour.
* Python while-loops are fuel-indexed recursions returning `Option`;
  `none` models divergence (no amount of fuel terminates the loop).
-/

namespace PyEmittance

/-- A raw or processed detector frame, flattened. -/
abbrev Img : Type := List ℚ

/-- Comparison `a <= b` where `a` may be NaN (`none`); NaN compares false. -/
def qle (a : Option ℚ) (b : ℚ) : Bool :=
  match a with
  | some x => decide (x ≤ b)
  | none => false

/-- Comparison `a < b` where `a` may be NaN; NaN compares false. -/
def qlt (a : Option ℚ) (b : ℚ) : Bool :=
  match a with
  | some x => decide (x < b)
  | none => false

/-- Comparison `a > b` where `a` may be NaN; NaN compares false. -/
def qgt (a : Option ℚ) (b : ℚ) : Bool :=
  match a with
  | some x => decide (b < x)
  | none => false

/-- Comparison `a >= b` where `a` may be NaN; NaN compares false. -/
def qge (a : Option ℚ) (b : ℚ) : Bool :=
  match a with
  | some x => decide (b ≤ x)
  | none => false

/-- NaN-propagating product with a known scalar (e.g. `xamp * amp_threshold`). -/
def qmul (a : Option ℚ) (b : ℚ) : Option ℚ := a.map (fun x => x * b)

/-- Result of one get_sizes fit: xrms, yrms, xrms_err, yrms_err, xamp, yamp. -/
structure Fit where
  xrms : Option ℚ
  yrms : Option ℚ
  xrms_err : Option ℝ
  yrms_err : Option ℝ
  xamp : Option ℚ
  yamp : Option ℚ

/-- Result of one get_beam_image call: the six fitted numbers plus the
processed image (`meas[0:2]`, `meas[2:4]`, `meas[4:]` in the source). -/
structure Meas where
  fit : Fit
  im : Img

/-- The img_proc section of the configuration dictionary.  Both
amp_threshold_x and amp_threshold_y are read from the single key
"amp_threshold" in the source, hence one field. -/
structure ImgProc where
  amp_threshold : ℚ
  min_sigma : ℚ
  max_sigma : ℚ
  max_samples : ℕ
  avg_ims : Bool
  n_to_acquire : ℕ
  subtract_bg : Bool

/-- The environment of a measurement call: the stream of single-image
acquisitions, the opaque Image-class operations, and the resolution PV
value (micrometers per pixel, as read by caget before the 1e-6 scaling). -/
structure Env where
  acq : ℕ → Meas
  reshape : Img → Img
  subBg : Img → Img
  getSizes : Img → Fit
  resolution_pv : ℚ

/-- The per-image acceptance condition of otrs_io.py lines 185-192:
xamp >= amp_threshold_x and yamp >= amp_threshold_y and
min_sigma < xrms < max_sigma and min_sigma < yrms < max_sigma,
all in pixel units, NaN failing every comparison. -/
def accept (p : ImgProc) (f : Fit) : Bool :=
  qge f.xamp p.amp_threshold && qge f.yamp p.amp_threshold
    && qgt f.xrms p.min_sigma && qgt f.yrms p.min_sigma
    && qlt f.xrms p.max_sigma && qlt f.yrms p.max_sigma

/-- The `while repeat:` retry loop of otrs_io.py lines 178-200 for a single
image slot, as a fuel-indexed recursion.  One iteration acquires `acq t`,
increments the counter, stops when the sample is accepted or when the
counter reaches max_samples (keeping the last sample as-is).  It returns
the stored sample together with the number of acquisitions consumed;
`none` models the nonterminating loop (reachable only when the fuel cannot
cover the counter check, i.e. max_samples = 0). -/
def retryAux (p : ImgProc) (acq : ℕ → Meas) : ℕ → ℕ → ℕ → Option (Meas × ℕ)
  | 0, _, _ => none
  | fuel + 1, t, count =>
    let m := acq t
    if accept p m.fit then some (m, count + 1)
    else if count + 1 = p.max_samples then some (m, count + 1)
    else retryAux p acq fuel (t + 1) (count + 1)

/-- One image slot of the `for i in range(0, num_images)` loop: run the
retry loop with counter starting at 0. -/
def sampleOne (p : ImgProc) (acq : ℕ → Meas) (t : ℕ) : Option (Meas × ℕ) :=
  retryAux p acq p.max_samples t 0

/-- The whole acquisition loop: one kept sample per image slot, threading
the acquisition counter.  Returns the kept samples in slot order and the
next counter value. -/
def acquireAll (p : ImgProc) (acq : ℕ → Meas) : ℕ → ℕ → Option (List Meas × ℕ)
  | 0, t => some ([], t)
  | n + 1, t =>
    (sampleOne p acq t).bind fun mk =>
      (acquireAll p acq n (t + mk.2)).map fun r => (mk.1 :: r.1, r.2)

/-- NaN-propagating sum of a float array (a single NaN makes the sum NaN). -/
def qsum : List (Option ℚ) → Option ℚ
  | [] => some 0
  | none :: _ => none
  | some x :: rest => (qsum rest).map (fun s => x + s)

/-- np.mean of a float array: NaN on an empty array, NaN-propagating
otherwise, else sum divided by length. -/
def npmean (xs : List (Option ℚ)) : Option ℚ :=
  if xs.isEmpty then none
  else (qsum xs).map (fun s => s / (xs.length : ℚ))

/-- Population variance underlying np.std (ddof = 0): mean of the squared
deviations from the mean, NaN-propagating. -/
def npvar (xs : List (Option ℚ)) : Option ℚ :=
  (npmean xs).bind fun m =>
    npmean (xs.map (fun a => a.map (fun x => (x - m) ^ 2)))

/-- np.std of a float array (ddof = 0): square root of the population
variance, NaN-propagating. -/
noncomputable def npstd (xs : List (Option ℚ)) : Option ℝ :=
  (npvar xs).map (fun v => Real.sqrt (v : ℝ))

/-- Boolean-mask gather, numpy's `np.array(ys)[idx]`. -/
def selectBy {α : Type} : List α → List Bool → List α
  | y :: ys, b :: bs => if b then y :: selectBy ys bs else selectBy ys bs
  | _, _ => []

/-- The validity mask `idx = ~np.isnan(xrms)`. -/
def validMask (xs : List (Option ℚ)) : List Bool := xs.map Option.isSome

/-- np.mean(im, axis=0): elementwise mean of a stack of frames. -/
def elemMean (ims : List Img) : Img :=
  match ims with
  | [] => []
  | i0 :: _ =>
    (List.range i0.length).map fun j =>
      ((ims.map fun im => im.getD j 0).sum) / (ims.length : ℚ)

/-- Log messages emitted by getbeamsizes_from_img. -/
inductive LogEvent where
  | allNaNTryingAverage (n : ℕ)
  | outOfBoundsAvg
  | outOfBoundsAvgAllNaN (n : ℕ)
  | allPointsNaN
  deriving DecidableEq

/-- The aggregated sextuple returned by getbeamsizes_from_img, plus the
processed image when the source returns a 7-element list (the all-NaN
short circuit of the average-fits policy returns a bare 6-tuple, modelled
with `im = none`). -/
structure BSResult where
  xrms : Option ℚ
  yrms : Option ℚ
  xrms_err : Option ℝ
  yrms_err : Option ℝ
  xamp : Option ℚ
  yamp : Option ℚ
  im : Option Img

/-- The processed averaged frame of the average-images branch: construct
the Image from the elementwise mean, reshape it, and subtract the
background when configured (otrs_io.py lines 214-221). -/
def avgProc (p : ImgProc) (env : Env) (ms : List Meas) : Img :=
  let a := env.reshape (elemMean (ms.map Meas.im))
  if p.subtract_bg then env.subBg a else a

/-- The out-of-bounds test on the averaged-image fit, with Python's
and/or precedence (otrs_io.py lines 230-237):
xamp < tx or yamp < ty or (xrms < min and yrms < min)
or (xrms > max and yrms > max); NaN fails every comparison. -/
def avgOutOfBounds (p : ImgProc) (f : Fit) : Bool :=
  qlt f.xamp p.amp_threshold || qlt f.yamp p.amp_threshold
    || (qlt f.xrms p.min_sigma && qlt f.yrms p.min_sigma)
    || (qgt f.xrms p.max_sigma && qgt f.yrms p.max_sigma)

/-- The aggregation tail of getbeamsizes_from_img (otrs_io.py lines
202-292), applied to the kept per-slot samples: either average the raw
frames and fit once, or average the per-image fits.  Also returns the log
messages emitted. -/
noncomputable def aggregate (p : ImgProc) (env : Env) (ms : List Meas) :
    BSResult × List LogEvent :=
  let xrms := ms.map fun m => (Meas.fit m).xrms
  let yrms := ms.map fun m => (Meas.fit m).yrms
  let xamp := ms.map fun m => (Meas.fit m).xamp
  let yamp := ms.map fun m => (Meas.fit m).yamp
  let idx := validMask xrms
  if p.avg_ims then
    let all_nan := !(idx.contains true)
    let log1 := if all_nan then [LogEvent.allNaNTryingAverage ms.length] else []
    let proc := avgProc p env ms
    let f := env.getSizes proc
    let log2 :=
      if avgOutOfBounds p f then
        if all_nan then [LogEvent.outOfBoundsAvgAllNaN ms.length]
        else [LogEvent.outOfBoundsAvg]
      else []
    (⟨f.xrms, f.yrms, f.xrms_err, f.yrms_err, f.xamp, f.yamp, some proc⟩,
      log1 ++ log2)
  else
    if !(idx.contains true) then
      (⟨none, none, none, none, none, none, none⟩, [LogEvent.allPointsNaN])
    else
      let n := idx.length
      let mean_xrms := npmean (selectBy xrms idx)
      let mean_yrms := npmean (selectBy yrms idx)
      let mean_xrms_err := (npstd (selectBy xrms idx)).map
        (fun s => s / Real.sqrt (n : ℝ))
      let mean_yrms_err := (npstd (selectBy yrms idx)).map
        (fun s => s / Real.sqrt (n : ℝ))
      let mean_xamp := npmean (selectBy xamp idx)
      let mean_yamp := npmean (selectBy yamp idx)
      let proc := env.reshape ((ms.map Meas.im).headD [])
      (⟨mean_xrms, mean_yrms, mean_xrms_err, mean_yrms_err,
        mean_xamp, mean_yamp, some proc⟩, [])

/-- getbeamsizes_from_img (otrs_io.py lines 142-292): acquire
n_to_acquire samples through the per-image retry loop, then aggregate
them under the configured policy.  Returns the result, the emitted log
messages and the advanced acquisition counter. -/
noncomputable def getbeamsizes_from_img (p : ImgProc) (env : Env) (t : ℕ) :
    Option ((BSResult × List LogEvent) × ℕ) :=
  (acquireAll p env.acq p.n_to_acquire t).map fun r =>
    (aggregate p env r.1, r.2)

/-- The NaN test `np.isnan(np.array(beamsizes[0:6])).any()` on the six
scalar slots of a batch result. -/
def isnanAny (bs : BSResult) : Bool :=
  bs.xrms.isNone || bs.yrms.isNone || bs.xrms_err.isNone
    || bs.yrms_err.isNone || bs.xamp.isNone || bs.yamp.isNone

/-- The condition of the batch-level `while` loop of get_beamsizes
(otrs_io.py lines 63-73).  The four value arguments are the local
variables xrms, yrms, xamp, yamp as the loop reads them: in the source
they are assigned only after the loop, so inside the loop they keep their
initial np.nan values. -/
def badBeamCond (p : ImgProc) (minm maxm : ℚ)
    (x y xa ya : Option ℚ) (bs : BSResult) : Bool :=
  qle x minm || qle y minm || qgt x maxm || qgt y maxm
    || qlt xa p.amp_threshold || qlt ya p.amp_threshold
    || qlt (qmul xa p.amp_threshold) 1500 || qlt (qmul ya p.amp_threshold) 1500
    || isnanAny bs

/-- How the batch-level loop of get_beamsizes ends: an early
`return np.nan, np.nan, np.nan, np.nan` on exhaustion, or falling through
to the unit conversion with the final batch result. -/
inductive LoopExit where
  | nans
  | ok (bs : BSResult)

/-- The batch-level rejection loop of get_beamsizes (otrs_io.py lines
59-96) as a fuel-indexed recursion.  Parameters x, y, xa, ya are the
stale locals read by the loop condition; they are never reassigned inside
the loop.  Each pass re-checks the condition, returns the NaN sentinel
when the batch counter has reached max_samples, and otherwise acquires a
fresh full batch. -/
noncomputable def rejectLoop (p : ImgProc) (env : Env) (minm maxm : ℚ)
    (x y xa ya : Option ℚ) : ℕ → BSResult → ℕ → ℕ → Option (LoopExit × ℕ)
  | fuel, bs, count, t =>
    if badBeamCond p minm maxm x y xa ya bs then
      if count = p.max_samples then some (LoopExit.nans, t)
      else
        match fuel with
        | 0 => none
        | fuel + 1 =>
          (getbeamsizes_from_img p env t).bind fun r =>
            rejectLoop p env minm maxm x y xa ya fuel r.1.1 (count + 1) r.2
    else some (LoopExit.ok bs, t)

/-- NaN-propagating product of a real-valued error with the rational
resolution factor. -/
noncomputable def rmulQ (a : Option ℝ) (b : ℚ) : Option ℝ :=
  a.map (fun x => x * (b : ℝ))

/-- The calibrated 4-tuple returned by get_beamsizes. -/
structure BSOut where
  xrms : Option ℚ
  yrms : Option ℚ
  xrms_err : Option ℝ
  yrms_err : Option ℝ

/-- get_beamsizes (otrs_io.py lines 22-139): read the resolution once,
derive meter thresholds, run the batch rejection loop when
reject_bad_beam is set (otherwise one batch), then convert to meters and
return.  The conversion block reproduces the source verbatim: the
converted x error is bound to the unused local rms_err while the returned
xrms_err keeps its pixel-unit value.  The advanced acquisition counter is
returned alongside for observation. -/
noncomputable def get_beamsizes (p : ImgProc) (env : Env) (t : ℕ)
    (reject_bad_beam : Bool) : Option (BSOut × ℕ) :=
  let resolution := env.resolution_pv * (1 / 1000000)
  let min_sigma_meters := p.min_sigma * resolution
  let max_sigma_meters := p.max_sigma * resolution
  let init : BSResult := ⟨none, none, none, none, none, none, none⟩
  let looped : Option (LoopExit × ℕ) :=
    if reject_bad_beam then
      rejectLoop p env min_sigma_meters max_sigma_meters
        none none none none p.max_samples init 0 t
    else
      (getbeamsizes_from_img p env t).map fun r => (LoopExit.ok r.1.1, r.2)
  looped.map fun r =>
    match r.1 with
    | LoopExit.nans => (⟨none, none, none, none⟩, r.2)
    | LoopExit.ok bs =>
      let xrms := qmul bs.xrms resolution
      let yrms := qmul bs.yrms resolution
      let rms_err := rmulQ bs.xrms_err resolution
      let yrms_err := rmulQ bs.yrms_err resolution
      (⟨xrms, yrms, bs.xrms_err, yrms_err⟩, r.2)

/-- The fields of MachineIO that decide the dispatch of
get_beamsizes_machine (machine_io.py). -/
structure Machine where
  meas_type : String
  online : Bool

/-- The observable outcome of MachineIO.get_beamsizes_machine: which
backend the call dispatches to, the offline synthetic path, or the
NotImplementedError raised for an unknown measurement type. -/
inductive MeasOutcome where
  | otrs
  | wire
  | offline
  | notImplementedError
  deriving DecidableEq

/-- MachineIO.get_beamsizes_machine (machine_io.py lines 47-64): dispatch
on meas_type and the online flag.  The quad_val argument only feeds the
setquad side effect and never changes the dispatch. -/
def get_beamsizes_machine (m : Machine) (quad_val : Option ℚ) : MeasOutcome :=
  let _ := quad_val
  if m.meas_type == "OTRS" && m.online then MeasOutcome.otrs
  else if m.meas_type == "WIRE" && m.online then MeasOutcome.wire
  else if !m.online then MeasOutcome.offline
  else MeasOutcome.notImplementedError

def cfgC6 : ImgProc := ⟨10, 1, 50, 3, false, 2, false⟩

def envC6 : Env :=
  ⟨fun _ => ⟨⟨none, none, none, none, none, none⟩, []⟩, id, id,
    fun _ => ⟨none, none, none, none, none, none⟩, 2⟩

def msC6 : List Meas :=
  [⟨⟨none, some 5, none, none, some 3, some 3⟩, []⟩,
    ⟨⟨none, some 7, none, none, some 4, some 4⟩, []⟩]

def cfgC7 : ImgProc := ⟨10, 1, 50, 3, true, 2, false⟩

def envC7 : Env :=
  ⟨fun _ => ⟨⟨none, none, none, none, none, none⟩, [1, 3]⟩, id, id,
    fun im => ⟨some (im.headD 0), some (im.headD 0), some 1, some 1,
      some 100, some 100⟩, 2⟩

def msC7 : List Meas :=
  [⟨⟨none, some 5, none, none, some 3, some 3⟩, [1, 3]⟩,
    ⟨⟨some 60, some 60, some 0, some 0, some 200, some 200⟩, [3, 5]⟩]

def cfgC10 : ImgProc := ⟨10, 1, 50, 3, true, 2, false⟩

def envC10 : Env :=
  ⟨fun _ => ⟨⟨none, none, none, none, none, none⟩, [1, 3]⟩, id, id,
    fun _ => ⟨some 10, some 12, some 1, some 1, some 0, some 0⟩, 2⟩

def msC10 : List Meas :=
  [⟨⟨some 20, some 5, none, none, some 3, some 3⟩, [1, 3]⟩,
    ⟨⟨some 60, some 60, some 0, some 0, some 200, some 200⟩, [3, 5]⟩]

/-- The per-image x RMS column of a batch. -/
def xrmsOf (ms : List Meas) : List (Option ℚ) := ms.map fun m => (Meas.fit m).xrms

/-- The per-image y RMS column of a batch. -/
def yrmsOf (ms : List Meas) : List (Option ℚ) := ms.map fun m => (Meas.fit m).yrms

/-- The per-image x amplitude column of a batch. -/
def xampOf (ms : List Meas) : List (Option ℚ) := ms.map fun m => (Meas.fit m).xamp

/-- The per-image y amplitude column of a batch. -/
def yampOf (ms : List Meas) : List (Option ℚ) := ms.map fun m => (Meas.fit m).yamp

/-- The non-NaN x RMS values of a batch. -/
def validXrms (ms : List Meas) : List ℚ := (xrmsOf ms).filterMap id

/-- Follows the claim's words, for comparison with the source computation:
the standard error of the mean as the sample standard deviation (ddof = 1)
of the valid values divided by the square root of the count of valid
samples. -/
noncomputable def claimedStdErr (xs : List ℚ) : ℝ :=
  Real.sqrt (((xs.map fun x => (x - xs.sum / (xs.length : ℚ)) ^ 2).sum /
      ((xs.length : ℚ) - 1) : ℚ) : ℝ) / Real.sqrt ((xs.length : ℝ))

def msC3 : List Meas :=
  [⟨⟨some 10, none, some 0, some 0, some 300, some 300⟩, []⟩,
    ⟨⟨some 20, some 30, some 0, some 0, some 300, some 300⟩, []⟩]

def cfgC3 : ImgProc := ⟨10, 1, 50, 1, false, 2, false⟩

def envC3 : Env :=
  ⟨fun t =>
    if t = 0 then ⟨⟨some 10, none, some 0, some 0, some 300, some 300⟩, []⟩
    else ⟨⟨some 20, some 30, some 0, some 0, some 300, some 300⟩, []⟩,
    id, id, fun _ => ⟨none, none, none, none, none, none⟩, 2⟩

def cfgC1 : ImgProc := ⟨10, 1, 50, 3, false, 3, false⟩

def envC1 : Env :=
  ⟨fun _ => ⟨⟨some 60, some 60, some 0, some 0, some 200, some 200⟩, []⟩,
    id, id, fun _ => ⟨none, none, none, none, none, none⟩, 2⟩

def cfgC2 : ImgProc := ⟨10, 1, 50, 3, true, 1, false⟩

def envC2 : Env :=
  ⟨fun _ => ⟨⟨some 10, some 12, some 3, some 3, some 300, some 300⟩, []⟩,
    id, id, fun _ => ⟨some 10, some 12, some 7, some 7, some 300, some 300⟩, 2⟩

/-- Population variance (ddof = 0) of a list of rationals, the value under
np.std's square root. -/
def pvarQ (l : List ℚ) : ℚ :=
  ((l.map fun x => (x - l.sum / (l.length : ℚ)) ^ 2).sum) / ((l.length : ℚ))

lemma qge_mono {a : Option ℚ} {t t' : ℚ} (h : t' ≤ t) (h2 : qge a t = true) :
    qge a t' = true := by
  cases a with
  | none => simp [qge] at h2
  | some x => simp [qge] at h2 ⊢; exact le_trans h h2

lemma qgt_mono {a : Option ℚ} {t t' : ℚ} (h : t' ≤ t) (h2 : qgt a t = true) :
    qgt a t' = true := by
  cases a with
  | none => simp [qgt] at h2
  | some x => simp [qgt] at h2 ⊢; exact lt_of_le_of_lt h h2

lemma qlt_mono {a : Option ℚ} {t t' : ℚ} (h : t ≤ t') (h2 : qlt a t = true) :
    qlt a t' = true := by
  cases a with
  | none => simp [qlt] at h2
  | some x => simp [qlt] at h2 ⊢; exact lt_of_lt_of_le h2 h

/-- C4: a single-image sample with numeric (non-NaN) fitted values is
accepted by the retry loop's stopping test exactly when
amplitude_x >= amp_threshold, amplitude_y >= amp_threshold,
min_sigma < rms_x < max_sigma and min_sigma < rms_y < max_sigma, all in
pixel units; on acceptance the loop stops with the sample and the
incremented counter, and on rejection short of exhaustion it retries with
the incremented attempt counter. -/
theorem C4_accept_iff (p : ImgProc) (rx ry ax ay : ℚ) (ex ey : Option ℝ)
    (acq : ℕ → Meas) (t count fuel : ℕ) :
    (accept p ⟨some rx, some ry, ex, ey, some ax, some ay⟩ = true ↔
      (p.amp_threshold ≤ ax ∧ p.amp_threshold ≤ ay ∧
        p.min_sigma < rx ∧ rx < p.max_sigma ∧
        p.min_sigma < ry ∧ ry < p.max_sigma)) ∧
    (accept p (acq t).fit = true →
      retryAux p acq (fuel + 1) t count = some (acq t, count + 1)) ∧
    (accept p (acq t).fit = false → count + 1 ≠ p.max_samples →
      retryAux p acq (fuel + 1) t count = retryAux p acq fuel (t + 1) (count + 1)) := by
  refine ⟨?_, ?_, ?_⟩
  · simp only [accept, qge, qgt, qlt, Bool.and_eq_true, decide_eq_true_eq]
    tauto
  · intro h
    simp [retryAux, h]
  · intro h hcnt
    simp [retryAux, h, hcnt]

/-- Witness for C4: a concrete in-bounds sample (rms 10 and 12 px,
amplitudes 300, thresholds amp 10 and sigma window (1, 50)) is accepted. -/
theorem C4_accept_iff_witness :
    accept ⟨10, 1, 50, 3, false, 3, false⟩
      ⟨some 10, some 12, none, none, some 300, some 300⟩ = true :=
  (C4_accept_iff ⟨10, 1, 50, 3, false, 3, false⟩ 10 12 300 300 none none
    (fun _ => ⟨⟨none, none, none, none, none, none⟩, []⟩) 0 0 0).1.mpr
    ⟨by decide, by decide, by decide, by decide, by decide, by decide⟩

/-- C8: the per-image acceptance predicate is monotone in the thresholds;
widening the sigma window and lowering the amplitude floor never rejects a
previously accepted sample. -/
theorem C8_accept_monotone (p p' : ImgProc) (f : Fit)
    (hmin : p'.min_sigma ≤ p.min_sigma) (hmax : p.max_sigma ≤ p'.max_sigma)
    (hamp : p'.amp_threshold ≤ p.amp_threshold)
    (h : accept p f = true) : accept p' f = true := by
  simp only [accept, Bool.and_eq_true] at h ⊢
  obtain ⟨⟨⟨⟨⟨h1, h2⟩, h3⟩, h4⟩, h5⟩, h6⟩ := h
  exact ⟨⟨⟨⟨⟨qge_mono hamp h1, qge_mono hamp h2⟩, qgt_mono hmin h3⟩,
    qgt_mono hmin h4⟩, qlt_mono hmax h5⟩, qlt_mono hmax h6⟩

/-- Witness for C8 at concrete thresholds: a sample accepted under
{amp 10, sigma window (1, 50)} stays accepted under the wider
{amp 5, sigma window (0, 60)}. -/
theorem C8_accept_monotone_witness :
    ((0 : ℚ) ≤ 1 ∧ (50 : ℚ) ≤ 60 ∧ (5 : ℚ) ≤ 10 ∧
      accept ⟨10, 1, 50, 3, false, 3, false⟩
        ⟨some 10, some 12, none, none, some 300, some 300⟩ = true) ∧
      accept ⟨5, 0, 60, 3, false, 3, false⟩
        ⟨some 10, some 12, none, none, some 300, some 300⟩ = true :=
  ⟨⟨by decide, by decide, by decide, by decide⟩,
    C8_accept_monotone ⟨10, 1, 50, 3, false, 3, false⟩
      ⟨5, 0, 60, 3, false, 3, false⟩
      ⟨some 10, some 12, none, none, some 300, some 300⟩
      (by decide) (by decide) (by decide) (by decide)⟩

/-- C9: get_beamsizes_machine raises NotImplementedError exactly when the
call is live (online) and the measurement-type selector is neither "OTRS"
nor "WIRE"; in particular an offline call never raises it. -/
theorem C9_unsupported_meas_type (m : Machine) (q : Option ℚ) :
    get_beamsizes_machine m q = MeasOutcome.notImplementedError ↔
      m.online = true ∧ m.meas_type ≠ "OTRS" ∧ m.meas_type ≠ "WIRE" := by
  cases m with
  | mk mt onl =>
    cases onl <;> by_cases h1 : mt = "OTRS" <;> by_cases h2 : mt = "WIRE" <;>
      simp [get_beamsizes_machine, h1, h2]

/-- Witness for C9: a live call with the unknown selector "SCREEN" raises
the unsupported-measurement-type error. -/
theorem C9_unsupported_meas_type_witness :
    get_beamsizes_machine ⟨"SCREEN", true⟩ none = MeasOutcome.notImplementedError :=
  (C9_unsupported_meas_type ⟨"SCREEN", true⟩ none).mpr
    ⟨rfl, by decide, by decide⟩

/-- Per-slot retry loop invariant: with positive remaining fuel matching
the distance from the counter to max_samples, the loop returns within the
remaining attempts, and on an all-rejected stream it exhausts exactly at
max_samples and keeps the last acquired sample. -/
lemma retryAux_spec (p : ImgProc) (acq : ℕ → Meas) :
    ∀ fuel t count, 1 ≤ fuel → count + fuel = p.max_samples →
      ∃ m k, retryAux p acq fuel t count = some (m, k) ∧
        count + 1 ≤ k ∧ k ≤ p.max_samples ∧
        ((∀ j, j < fuel → accept p (acq (t + j)).fit = false) →
          m = acq (t + (fuel - 1)) ∧ k = p.max_samples) := by
  intro fuel
  induction fuel with
  | zero => intro t count h1 _; omega
  | succ f ih =>
    intro t count h1 h2
    by_cases hacc : accept p (acq t).fit = true
    · refine ⟨acq t, count + 1, by simp [retryAux, hacc], le_refl _, by omega, ?_⟩
      intro hall
      have := hall 0 (by omega)
      simp only [Nat.add_zero] at this
      rw [this] at hacc
      exact absurd hacc (by simp)
    · have hacc' : accept p (acq t).fit = false := by
        simpa using hacc
      by_cases hcnt : count + 1 = p.max_samples
      · refine ⟨acq t, count + 1, by simp [retryAux, hacc', hcnt], le_refl _,
          by omega, ?_⟩
        intro _
        have hf : f = 0 := by omega
        subst hf
        exact ⟨by simp, hcnt⟩
      · have hf1 : 1 ≤ f := by omega
        obtain ⟨m, k, heq, hk1, hk2, hex⟩ := ih (t + 1) (count + 1) hf1 (by omega)
        refine ⟨m, k, by simp [retryAux, hacc', hcnt, heq], by omega, hk2, ?_⟩
        intro hall
        have hall' : ∀ j, j < f → accept p (acq (t + 1 + j)).fit = false := by
          intro j hj
          have := hall (j + 1) (by omega)
          have harith : t + (j + 1) = t + 1 + j := by omega
          rwa [harith] at this
        obtain ⟨hm, hk⟩ := hex hall'
        refine ⟨?_, hk⟩
        rw [hm]
        congr 1
        omega

/-- C5: the per-image retry loop terminates after at most max_samples
acquisitions, and when every acquisition in the window is rejected it
exhausts exactly at max_samples, keeping the last acquired sample as-is
rather than discarding it. -/
theorem C5_retry_bounded (p : ImgProc) (acq : ℕ → Meas) (t : ℕ)
    (h : 1 ≤ p.max_samples) :
    ∃ m k, sampleOne p acq t = some (m, k) ∧ k ≤ p.max_samples ∧
      ((∀ j, j < p.max_samples → accept p (acq (t + j)).fit = false) →
        m = acq (t + (p.max_samples - 1)) ∧ k = p.max_samples) := by
  obtain ⟨m, k, heq, _, hk2, hex⟩ :=
    retryAux_spec p acq p.max_samples t 0 h (by omega)
  exact ⟨m, k, by simpa [sampleOne] using heq, hk2, hex⟩

/-- Witness for C5 at max_samples = 2 and an acquisition stream that is
always out of bounds (rms 60 against max_sigma 50). -/
theorem C5_retry_bounded_witness :
    1 ≤ (ImgProc.mk 10 1 50 2 false 1 false).max_samples ∧
      ∃ m k,
        sampleOne (ImgProc.mk 10 1 50 2 false 1 false)
          (fun _ => ⟨⟨some 60, some 60, some 0, some 0, some 200, some 200⟩, []⟩)
          0 = some (m, k) ∧
        k ≤ (ImgProc.mk 10 1 50 2 false 1 false).max_samples ∧
        ((∀ j, j < (ImgProc.mk 10 1 50 2 false 1 false).max_samples →
            accept (ImgProc.mk 10 1 50 2 false 1 false)
              ((fun _ : ℕ =>
                (⟨⟨some 60, some 60, some 0, some 0, some 200, some 200⟩, []⟩ :
                  Meas)) (0 + j)).fit = false) →
          m = (fun _ : ℕ =>
                (⟨⟨some 60, some 60, some 0, some 0, some 200, some 200⟩, []⟩ :
                  Meas)) (0 + ((ImgProc.mk 10 1 50 2 false 1 false).max_samples - 1)) ∧
          k = (ImgProc.mk 10 1 50 2 false 1 false).max_samples) :=
  ⟨by decide,
    C5_retry_bounded (ImgProc.mk 10 1 50 2 false 1 false)
      (fun _ => ⟨⟨some 60, some 60, some 0, some 0, some 200, some 200⟩, []⟩)
      0 (by decide)⟩

lemma validMask_not_mem_true (xs : List (Option ℚ)) (h : ∀ a ∈ xs, a = none) :
    true ∉ validMask xs := by
  intro hmem
  simp only [validMask, List.mem_map] at hmem
  obtain ⟨a, ha, hae⟩ := hmem
  rw [h a ha] at hae
  simp at hae

lemma mem_true_validMask (xs : List (Option ℚ)) :
    true ∈ validMask xs ↔ xs.filterMap id ≠ [] := by
  simp only [validMask, List.mem_map]
  constructor
  · rintro ⟨a, ha, hae⟩
    cases a with
    | none => simp at hae
    | some x =>
      intro hnil
      have hx : x ∈ xs.filterMap id := by
        simp only [List.mem_filterMap]
        exact ⟨some x, ha, rfl⟩
      rw [hnil] at hx
      simp at hx
  · intro hne
    obtain ⟨x, hx⟩ := List.exists_mem_of_ne_nil _ hne
    simp only [List.mem_filterMap] at hx
    obtain ⟨a, ha, hfa⟩ := hx
    exact ⟨a, ha, by simp [show a = some x from hfa]⟩

lemma selectBy_validMask (xs : List (Option ℚ)) :
    selectBy xs (validMask xs) = (xs.filterMap id).map some := by
  induction xs with
  | nil => rfl
  | cons a rest ih =>
    simp only [validMask, List.map_cons] at ih ⊢
    cases a with
    | none => simpa [selectBy] using ih
    | some x => simp [selectBy, List.filterMap_cons, ih]

lemma qsum_map_some (l : List ℚ) : qsum (l.map some) = some l.sum := by
  induction l with
  | nil => simp [qsum]
  | cons x rest ih => simp [qsum, ih]

lemma npmean_map_some (l : List ℚ) (h : l ≠ []) :
    npmean (l.map some) = some (l.sum / (l.length : ℚ)) := by
  simp [npmean, qsum_map_some, h]
lemma npvar_map_some (l : List ℚ) (h : l ≠ []) :
    npvar (l.map some) = some (pvarQ l) := by
  have h2 : (l.map fun x => (x - l.sum / (l.length : ℚ)) ^ 2) ≠ [] := by
    simpa using h
  simp only [npvar, npmean_map_some l h, Option.some_bind]
  rw [show ((l.map some).map fun a =>
      a.map fun x => (x - l.sum / (l.length : ℚ)) ^ 2) =
    ((l.map fun x => (x - l.sum / (l.length : ℚ)) ^ 2).map some) by
      simp [List.map_map]]
  rw [npmean_map_some _ h2]
  simp [pvarQ]

lemma npstd_map_some (l : List ℚ) (h : l ≠ []) :
    npstd (l.map some) = some (Real.sqrt ((pvarQ l : ℚ) : ℝ)) := by
  simp [npstd, npvar_map_some l h]

/-- C6: under the average-fits policy, a batch in which every sample has a
NaN x RMS short-circuits to the all-NaN sextuple (with no processed image,
mirroring the bare 6-tuple return) and logs the dedicated message; no
averaged fit is attempted. -/
theorem C6_all_nan_short_circuit (p : ImgProc) (env : Env) (ms : List Meas)
    (h1 : p.avg_ims = false)
    (h2 : ∀ m ∈ ms, (Meas.fit m).xrms = none) :
    aggregate p env ms =
      (⟨none, none, none, none, none, none, none⟩, [LogEvent.allPointsNaN]) := by
  have hc : true ∉ validMask (ms.map fun m => (Meas.fit m).xrms) := by
    apply validMask_not_mem_true
    intro a ha
    simp only [List.mem_map] at ha
    obtain ⟨m, hm, rfl⟩ := ha
    exact h2 m hm
  simp [aggregate, h1, hc]
/-- Witness for C6 on a concrete two-sample batch whose x RMS values are
both NaN. -/
theorem C6_all_nan_short_circuit_witness :
    (cfgC6.avg_ims = false ∧ ∀ m ∈ msC6, (Meas.fit m).xrms = none) ∧
      aggregate cfgC6 envC6 msC6 =
        (⟨none, none, none, none, none, none, none⟩, [LogEvent.allPointsNaN]) :=
  ⟨⟨rfl, by intro m hm; simp only [msC6, List.mem_cons, List.mem_singleton,
      List.not_mem_nil, or_false] at hm; rcases hm with rfl | rfl <;> rfl⟩,
    C6_all_nan_short_circuit cfgC6 envC6 msC6 rfl
      (by intro m hm; simp only [msC6, List.mem_cons, List.mem_singleton,
        List.not_mem_nil, or_false] at hm; rcases hm with rfl | rfl <;> rfl)⟩

/-- C7: under the average-images policy the result is the single fit of
the elementwise mean of all kept frames, regardless of per-image validity;
the processed averaged frame is returned alongside, and when every
per-image x RMS is NaN the dedicated warning is logged while the averaged
fit still happens. -/
theorem C7_avg_images_single_fit (p : ImgProc) (env : Env) (ms : List Meas)
    (h : p.avg_ims = true) :
    (aggregate p env ms).1 =
      ⟨(env.getSizes (avgProc p env ms)).xrms,
        (env.getSizes (avgProc p env ms)).yrms,
        (env.getSizes (avgProc p env ms)).xrms_err,
        (env.getSizes (avgProc p env ms)).yrms_err,
        (env.getSizes (avgProc p env ms)).xamp,
        (env.getSizes (avgProc p env ms)).yamp,
        some (avgProc p env ms)⟩ ∧
      ((∀ m ∈ ms, (Meas.fit m).xrms = none) →
        LogEvent.allNaNTryingAverage ms.length ∈ (aggregate p env ms).2) := by
  constructor
  · simp [aggregate, h]
  · intro h2
    have hc : true ∉ validMask (ms.map fun m => (Meas.fit m).xrms) := by
      apply validMask_not_mem_true
      intro a ha
      simp only [List.mem_map] at ha
      obtain ⟨m, hm, rfl⟩ := ha
      exact h2 m hm
    simp [aggregate, h, hc]
/-- Witness for C7 on a concrete two-frame batch (one sample NaN, one out
of bounds): the result is the single fit of the averaged frame. -/
theorem C7_avg_images_single_fit_witness :
    cfgC7.avg_ims = true ∧
      ((aggregate cfgC7 envC7 msC7).1 =
        ⟨(envC7.getSizes (avgProc cfgC7 envC7 msC7)).xrms,
          (envC7.getSizes (avgProc cfgC7 envC7 msC7)).yrms,
          (envC7.getSizes (avgProc cfgC7 envC7 msC7)).xrms_err,
          (envC7.getSizes (avgProc cfgC7 envC7 msC7)).yrms_err,
          (envC7.getSizes (avgProc cfgC7 envC7 msC7)).xamp,
          (envC7.getSizes (avgProc cfgC7 envC7 msC7)).yamp,
          some (avgProc cfgC7 envC7 msC7)⟩ ∧
        ((∀ m ∈ msC7, (Meas.fit m).xrms = none) →
          LogEvent.allNaNTryingAverage msC7.length ∈ (aggregate cfgC7 envC7 msC7).2)) :=
  ⟨rfl, C7_avg_images_single_fit cfgC7 envC7 msC7 rfl⟩

/-- C10: under the average-images policy, when the fit of the averaged
frame fails the bounds test the function only logs (one of the two
out-of-bounds messages) and still returns the fitted sextuple and the
processed averaged frame unchanged; nothing is replaced by NaN sentinels. -/
theorem C10_avg_oob_only_logs (p : ImgProc) (env : Env) (ms : List Meas)
    (h : p.avg_ims = true)
    (hoob : avgOutOfBounds p (env.getSizes (avgProc p env ms)) = true) :
    (aggregate p env ms).1 =
      ⟨(env.getSizes (avgProc p env ms)).xrms,
        (env.getSizes (avgProc p env ms)).yrms,
        (env.getSizes (avgProc p env ms)).xrms_err,
        (env.getSizes (avgProc p env ms)).yrms_err,
        (env.getSizes (avgProc p env ms)).xamp,
        (env.getSizes (avgProc p env ms)).yamp,
        some (avgProc p env ms)⟩ ∧
      ((aggregate p env ms).2 = [LogEvent.outOfBoundsAvg] ∨
        (aggregate p env ms).2 =
          [LogEvent.allNaNTryingAverage ms.length,
            LogEvent.outOfBoundsAvgAllNaN ms.length]) := by
  constructor
  · simp [aggregate, h]
  · by_cases hcb : true ∈ validMask (ms.map fun m => (Meas.fit m).xrms)
    · left
      simp [aggregate, h, hcb, hoob]
    · right
      simp [aggregate, h, hcb, hoob]
/-- Witness for C10: the averaged-frame fit has amplitude 0 below the
threshold 10, and the fitted sextuple is still returned unchanged. -/
theorem C10_avg_oob_only_logs_witness :
    (cfgC10.avg_ims = true ∧
      avgOutOfBounds cfgC10 (envC10.getSizes (avgProc cfgC10 envC10 msC10)) = true) ∧
      ((aggregate cfgC10 envC10 msC10).1 =
        ⟨(envC10.getSizes (avgProc cfgC10 envC10 msC10)).xrms,
          (envC10.getSizes (avgProc cfgC10 envC10 msC10)).yrms,
          (envC10.getSizes (avgProc cfgC10 envC10 msC10)).xrms_err,
          (envC10.getSizes (avgProc cfgC10 envC10 msC10)).yrms_err,
          (envC10.getSizes (avgProc cfgC10 envC10 msC10)).xamp,
          (envC10.getSizes (avgProc cfgC10 envC10 msC10)).yamp,
          some (avgProc cfgC10 envC10 msC10)⟩ ∧
        ((aggregate cfgC10 envC10 msC10).2 = [LogEvent.outOfBoundsAvg] ∨
          (aggregate cfgC10 envC10 msC10).2 =
            [LogEvent.allNaNTryingAverage msC10.length,
              LogEvent.outOfBoundsAvgAllNaN msC10.length])) :=
  ⟨⟨rfl, by decide⟩, C10_avg_oob_only_logs cfgC10 envC10 msC10 rfl (by decide)⟩

/-- C3 (amended): under the average-fits policy with at least one non-NaN
x RMS, the aggregated x RMS is the mean of the valid x values, the x RMS
error is the population standard deviation (ddof = 0) of the valid x
values divided by the square root of num_images (the full batch size, not
the valid count), and the y RMS and both amplitudes are means taken at
the x-valid indices (a NaN there propagates to NaN). -/
theorem C3_amended_avg_fits (p : ImgProc) (env : Env) (ms : List Meas)
    (h1 : p.avg_ims = false) (h2 : validXrms ms ≠ []) :
    (aggregate p env ms).1.xrms =
      some ((validXrms ms).sum / ((validXrms ms).length : ℚ)) ∧
    (aggregate p env ms).1.xrms_err =
      some (Real.sqrt ((pvarQ (validXrms ms) : ℚ) : ℝ) /
        Real.sqrt ((ms.length : ℝ))) ∧
    (aggregate p env ms).1.yrms =
      npmean (selectBy (yrmsOf ms) (validMask (xrmsOf ms))) ∧
    (aggregate p env ms).1.xamp =
      npmean (selectBy (xampOf ms) (validMask (xrmsOf ms))) ∧
    (aggregate p env ms).1.yamp =
      npmean (selectBy (yampOf ms) (validMask (xrmsOf ms))) := by
  have hc : true ∈ validMask (ms.map fun m => (Meas.fit m).xrms) :=
    (mem_true_validMask _).mpr h2
  have hsel : selectBy (ms.map fun m => (Meas.fit m).xrms)
      (validMask (ms.map fun m => (Meas.fit m).xrms)) =
      ((ms.map fun m => (Meas.fit m).xrms).filterMap id).map some :=
    selectBy_validMask _
  have hlen : (validMask (ms.map fun m => (Meas.fit m).xrms)).length = ms.length := by
    simp [validMask]
  have hcb : (validMask (ms.map fun m => (Meas.fit m).xrms)).contains true = true := by
    simpa using hc
  have h2u : (ms.map fun m => (Meas.fit m).xrms).filterMap id ≠ [] := h2
  refine ⟨?_, ?_, ?_, ?_, ?_⟩ <;>
    simp only [aggregate, h1, Bool.false_eq_true, if_false, xrmsOf, yrmsOf,
      xampOf, yampOf, validXrms, hcb, Bool.not_true, hsel, hlen]
  · rw [npmean_map_some _ h2u]
  · rw [npstd_map_some _ h2u]
    rfl
/-- Witness for the amended C3 on a concrete two-sample batch with one
NaN y value. -/
theorem C3_amended_avg_fits_witness :
    (cfgC3.avg_ims = false ∧ validXrms msC3 ≠ []) ∧
      ((aggregate cfgC3 envC3 msC3).1.xrms =
        some ((validXrms msC3).sum / ((validXrms msC3).length : ℚ)) ∧
      (aggregate cfgC3 envC3 msC3).1.xrms_err =
        some (Real.sqrt ((pvarQ (validXrms msC3) : ℚ) : ℝ) /
          Real.sqrt ((msC3.length : ℝ))) ∧
      (aggregate cfgC3 envC3 msC3).1.yrms =
        npmean (selectBy (yrmsOf msC3) (validMask (xrmsOf msC3))) ∧
      (aggregate cfgC3 envC3 msC3).1.xamp =
        npmean (selectBy (xampOf msC3) (validMask (xrmsOf msC3))) ∧
      (aggregate cfgC3 envC3 msC3).1.yamp =
        npmean (selectBy (yampOf msC3) (validMask (xrmsOf msC3)))) :=
  ⟨⟨rfl, by decide⟩, C3_amended_avg_fits cfgC3 envC3 msC3 rfl (by decide)⟩

/-- C3 (counterexample): running the average-fits pipeline on a batch
whose per-image fits are (x, y) = (10, NaN) and (20, 30) returns y RMS =
NaN, not the mean 30 of the valid y values, and returns x RMS error
sqrt(25)/sqrt(2) (population std over sqrt(num_images)), which differs
from the claimed sample-std-over-sqrt-of-valid-count value for the valid
x values [10, 20]. -/
theorem C3_counterexample :
    (getbeamsizes_from_img cfgC3 envC3 0).map
        (fun r => (r.1.1.yrms, r.1.1.xrms_err)) =
      some (none, some (Real.sqrt ((25 : ℚ) : ℝ) / Real.sqrt ((2 : ℕ) : ℝ))) ∧
    (none : Option ℚ) ≠ some (30 : ℚ) ∧
    Real.sqrt ((25 : ℚ) : ℝ) / Real.sqrt ((2 : ℕ) : ℝ) ≠ claimedStdErr [10, 20] := by
  refine ⟨by with_unfolding_all rfl, by simp, ?_⟩
  intro h
  have hval : claimedStdErr [10, 20] =
      Real.sqrt ((50 : ℚ) : ℝ) / Real.sqrt ((2 : ℕ) : ℝ) := by
    unfold claimedStdErr
    rw [show ((([10, 20] : List ℚ).map fun x =>
        (x - ([10, 20] : List ℚ).sum / ((([10, 20] : List ℚ).length : ℚ))) ^ 2).sum /
        (((([10, 20] : List ℚ).length : ℚ)) - 1) : ℚ) = (50 : ℚ) by
          with_unfolding_all rfl]
    norm_num
  rw [hval] at h
  have hs2 : Real.sqrt ((2 : ℕ) : ℝ) ≠ 0 := by
    have h2 : ((2 : ℕ) : ℝ) = (2 : ℝ) := by norm_num
    rw [h2, Real.sqrt_ne_zero']
    norm_num
  have h25 : Real.sqrt ((25 : ℚ) : ℝ) = Real.sqrt ((50 : ℚ) : ℝ) := by
    have hmul := congrArg (fun z => z * Real.sqrt ((2 : ℕ) : ℝ)) h
    simp only [div_mul_cancel₀ _ hs2] at hmul
    exact hmul
  have hq : ((25 : ℚ) : ℝ) = ((50 : ℚ) : ℝ) := by
    have ha : (0 : ℝ) ≤ ((25 : ℚ) : ℝ) := by norm_num
    have hb : (0 : ℝ) ≤ ((50 : ℚ) : ℝ) := by norm_num
    exact (Real.sqrt_inj ha hb).mp h25
  norm_num at hq
/-- C1 (behaviour at the claim's scenario): with thresholds min_sigma 1,
max_sigma 50, amp_threshold 10, max_samples 3, resolution 2e-6 m/px, and
every acquisition returning the non-NaN but out-of-bounds fit rms = 60 px,
the batch-level loop exits after a single batch (9 acquisitions: 3 slots
times 3 per-image retries) and get_beamsizes returns the out-of-bounds
values converted to meters (60 px * 2e-6 = 3/25000 m) instead of
re-acquiring max_samples batches and returning the all-NaN 4-tuple: the
loop condition reads the stale NaN locals, so the only live disjunct is
the NaN test on the batch result. -/
theorem C1_stale_condition_eval :
    (get_beamsizes cfgC1 envC1 0 true).map
        (fun r => (r.1.xrms, r.1.yrms, r.2)) =
      some (some (3 / 25000), some (3 / 25000), 9) ∧
    (3 / 25000 : ℚ) = 60 * (2 * (1 / 1000000)) ∧
    qgt (some (60 : ℚ)) cfgC1.max_sigma = true := by
  refine ⟨by with_unfolding_all rfl, by norm_num, by decide⟩
/-- C2 (behaviour at the claim's scenario): with resolution 2e-6 m/px and
an accepted batch whose fit is xrms 10 px with xrms_err 7 px, get_beamsizes
returns xrms = 2e-5 m (converted) but xrms_err = 7, still in pixel units:
the converted value is bound to the dead local rms_err, while yrms_err is
returned converted. -/
theorem C2_pixel_err_eval :
    (get_beamsizes cfgC2 envC2 0 true).map (fun r => r.1.xrms) =
      some (some (1 / 50000)) ∧
    (get_beamsizes cfgC2 envC2 0 true).map (fun r => r.1.xrms_err) =
      some (some (7 : ℝ)) ∧
    (get_beamsizes cfgC2 envC2 0 true).map (fun r => r.1.yrms_err) =
      some (some ((7 : ℝ) * ((2 * (1 / 1000000) : ℚ) : ℝ))) ∧
    (7 : ℝ) ≠ (7 : ℝ) * ((2 * (1 / 1000000) : ℚ) : ℝ) := by
  refine ⟨by with_unfolding_all rfl, by with_unfolding_all rfl,
    by with_unfolding_all rfl, ?_⟩
  intro h
  have hc : ((2 * (1 / 1000000) : ℚ) : ℝ) = (1 / 500000 : ℝ) := by norm_num
  rw [hc] at h
  norm_num at h

end PyEmittance
